import Mathlib

/-!
Verification development for the simple-dash report-parsing core.

Shallow embedding of:
- `app/parsers/detector.py` (`detect_and_parse`)
- `app/parsers/mailchimp.py` (`parse_kv`, `extract_number_and_percent`,
  `sanitize_title`, `parse_mailchimp`)
- the per-file batch loop of `app/main.py` (`parse_report`, lines 94-188)

Python strings are modelled as Lean `String` (operated on via `List Char`),
Python ints as `ℤ`, Python floats as `ℚ` (the claims under study are about
exact arithmetic identities, not rounding), Python `None` as `Option.none`,
and raised exceptions as `Except PyExn`.
-/

set_option maxRecDepth 100000

namespace SimpleDash

/-- Characters treated as whitespace by Python `str.strip()` / `\s` (ASCII range). -/
def pyIsSpace (c : Char) : Bool :=
  c = ' ' || c = '\t' || c = '\n' || c = '\r' || c = '\x0b' || c = '\x0c'

/-- Strip characters satisfying `p` from both ends (Python `str.strip(chars)`). -/
def chStrip (p : Char → Bool) (xs : List Char) : List Char :=
  ((xs.dropWhile p).reverse.dropWhile p).reverse

/-- Python `str.strip()` (no argument: whitespace). -/
def pyStrip (s : String) : String :=
  ⟨chStrip pyIsSpace s.data⟩

/-- Python `needle in haystack` substring test. -/
def pyIn (needle hay : String) : Bool :=
  (List.range (hay.data.length + 1)).any fun i => needle.data.isPrefixOf (hay.data.drop i)

/-- Python `s.startswith(p)`. -/
def strStartsWith (s p : String) : Bool := p.data.isPrefixOf s.data

/-- Split a character list at line boundaries (`\n`, `\r\n`, `\r`), as Python
`str.splitlines()` does for those terminators.  (Python omits a trailing empty
line; the parser filters blank lines away immediately afterwards, so the two
behaviours agree after that filter.) -/
def chLines : List Char → List (List Char)
  | [] => [[]]
  | '\r' :: '\n' :: rest => [] :: chLines rest
  | '\r' :: rest => [] :: chLines rest
  | '\n' :: rest => [] :: chLines rest
  | c :: rest =>
    match chLines rest with
    | [] => [[c]]
    | l :: ls => (c :: l) :: ls

/-- Split on a single separator character (used for Python `str.split('.')`-style
splits on one-character separators). -/
def chSplitOnChar (sep : Char) : List Char → List (List Char)
  | [] => [[]]
  | c :: rest =>
    if c = sep then [] :: chSplitOnChar sep rest
    else
      match chSplitOnChar sep rest with
      | [] => [[c]]
      | l :: ls => (c :: l) :: ls

/-- Python `line.split('","')`: split on the three-character separator `","`,
leftmost non-overlapping occurrences. -/
def chSplitOnQCQ : List Char → List (List Char)
  | [] => [[]]
  | '"' :: ',' :: '"' :: rest => [] :: chSplitOnQCQ rest
  | c :: rest =>
    match chSplitOnQCQ rest with
    | [] => [[c]]
    | l :: ls => (c :: l) :: ls

/-- Numeric value of a list of decimal digit characters (empty list gives 0). -/
def natOfDigits (ds : List Char) : ℕ :=
  ds.foldl (fun a c => a * 10 + (c.toNat - 48)) 0

/-- Exceptions raised by the modelled Python code.  `valueError` and
`attributeError` are the Python builtins.  The remaining four are
modelled from the spec: the error taxonomy of `app/models.py`
(`EmptyReportError`, `UnsupportedFormatError`, `InvalidCampaignError`,
`ParseError`), which is imported by `app/main.py` but whose source file is
not present; per the spec (§7) they are distinct classes carrying a
`.message`, and the builtins are not among them. -/
inductive PyExn
  | valueError (msg : String)
  | attributeError (msg : String)
  | emptyReport (msg : String)
  | unsupportedFormat (msg : String)
  | invalidCampaign (msg : String)
  | parseError (msg : String)
deriving DecidableEq, Repr

/-- Decidable equality for `Except`, so concrete parser outcomes can be
settled by `decide`. -/
instance excDecEq {ε α : Type} [DecidableEq ε] [DecidableEq α] : DecidableEq (Except ε α) :=
  fun u v =>
  match u, v with
  | .ok a, .ok b =>
    if h : a = b then .isTrue (by rw [h]) else .isFalse (fun hh => h (Except.ok.inj hh))
  | .error a, .error b =>
    if h : a = b then .isTrue (by rw [h]) else .isFalse (fun hh => h (Except.error.inj hh))
  | .ok _, .error _ => .isFalse (fun hh => Except.noConfusion hh)
  | .error _, .ok _ => .isFalse (fun hh => Except.noConfusion hh)

/-- Python `int(s)` for base 10: optional surrounding whitespace, optional
sign, then a non-empty digit string; anything else raises `ValueError`. -/
def pyInt (s : String) : Except PyExn ℤ :=
  match chStrip pyIsSpace s.data with
  | '-' :: ds =>
    if ds ≠ [] ∧ ds.all Char.isDigit then .ok (-(natOfDigits ds : ℤ))
    else .error (.valueError ("invalid literal for int with base 10: " ++ s))
  | '+' :: ds =>
    if ds ≠ [] ∧ ds.all Char.isDigit then .ok (natOfDigits ds : ℤ)
    else .error (.valueError ("invalid literal for int with base 10: " ++ s))
  | ds =>
    if ds ≠ [] ∧ ds.all Char.isDigit then .ok (natOfDigits ds : ℤ)
    else .error (.valueError ("invalid literal for int with base 10: " ++ s))

/-- Python `float(s)` restricted to strings of digits and dots (the only shape
the percent regex group can produce): valid iff it has at least one digit and
at most one dot; otherwise raises `ValueError`. -/
def pyFloatDD (ds : List Char) : Except PyExn ℚ :=
  match chSplitOnChar '.' ds with
  | [a] =>
    if a ≠ [] ∧ a.all Char.isDigit then .ok (natOfDigits a : ℚ)
    else .error (.valueError ("could not convert string to float: " ++ (⟨ds⟩ : String)))
  | [a, b] =>
    if a ++ b ≠ [] ∧ a.all Char.isDigit ∧ b.all Char.isDigit then
      .ok ((natOfDigits a : ℚ) + (natOfDigits b : ℚ) / ((10 : ℚ) ^ b.length))
    else .error (.valueError ("could not convert string to float: " ++ (⟨ds⟩ : String)))
  | _ => .error (.valueError ("could not convert string to float: " ++ (⟨ds⟩ : String)))

/-- `re.search(r'([\d,]+)', value)`: the leftmost maximal run of digit/comma
characters, or `none`. -/
def findRun (p : Char → Bool) : List Char → Option (List Char)
  | [] => none
  | c :: rest => if p c then some (c :: rest.takeWhile p) else findRun p rest

/-- `re.search(r'\(([\d.]+)%\)', value)`: the group captured by the first
position where `(` is followed by a non-empty maximal run of digit/dot
characters, then `%` and `)`.  (No shorter run can match, since the character
after any shorter prefix of the run is again a digit or dot, never `%`, so
the greedy scan is equivalent to the regex search.) -/
def findPctGroup : List Char → Option (List Char)
  | [] => none
  | c :: rest =>
    if c = '(' then
      let run := rest.takeWhile (fun d => d.isDigit || d = '.')
      if run ≠ [] ∧ (rest.drop run.length).take 2 = ['%', ')'] then some run
      else findPctGroup rest
    else findPctGroup rest

/-- Python `s.replace(',', '')`. -/
def stripCommas (s : String) : String :=
  ⟨s.data.filter (fun c => c ≠ ',')⟩

/-- `parse_kv` from `app/parsers/mailchimp.py` lines 4-11: split the line on
`","`, keep the pieces whose whitespace-strip is non-empty, strip whitespace
then surrounding `"` characters from each; with at least two pieces, the key
is the first piece stripped of `:` then whitespace, the value the second
piece stripped of whitespace; otherwise `(None, None)`. -/
def parse_kv (line : List Char) : Option String × Option String :=
  let parts := ((chSplitOnQCQ line).filter
      (fun p => chStrip pyIsSpace p ≠ [])).map
      (fun p => chStrip (fun c => c = '"') (chStrip pyIsSpace p))
  match parts with
  | k :: v :: _ =>
    (some (⟨chStrip pyIsSpace (chStrip (fun c => c = ':') k)⟩ : String),
     some (⟨chStrip pyIsSpace v⟩ : String))
  | _ => (none, none)

/-- `extract_number_and_percent` from `app/parsers/mailchimp.py` lines 14-27:
the main number first (an exception from `int` propagates), then the
percentage (an exception from `float` propagates); a missing match yields
`None` for that component. -/
def extract_number_and_percent (value : String) : Except PyExn (Option ℤ × Option ℚ) :=
  if value = "" then .ok (none, none)
  else
    match
      (match findRun (fun c => c.isDigit || c = ',') value.data with
        | some run => (pyInt (⟨run.filter (fun c => c ≠ ',')⟩ : String)).map some
        | none => .ok none) with
    | .error e => .error e
    | .ok num =>
      match
        (match findPctGroup value.data with
          | some g => (pyFloatDD g).map (fun q => some (q / 100))
          | none => .ok none) with
      | .error e => .error e
      | .ok pct => .ok (num, pct)

/-- Characters kept by `re.sub(r'[^\w\s\-.,!?]', '', subject)`: word
characters (`\w`, ASCII range: alphanumerics and underscore), whitespace,
`-`, `.`, `,`, `!`, `?`. -/
def sanitizeKeep (c : Char) : Bool :=
  c.isAlphanum || c = '_' || pyIsSpace c || c = '-' || c = '.' || c = ',' || c = '!' || c = '?'

/-- Worker for `re.sub(r'\s+', ' ', s)`: `inRun` records whether the
previous character belonged to a whitespace run, so each maximal run
contributes exactly one space. -/
def collapseWsGo (inRun : Bool) : List Char → List Char
  | [] => []
  | c :: rest =>
    if pyIsSpace c then
      if inRun then collapseWsGo true rest else ' ' :: collapseWsGo true rest
    else c :: collapseWsGo false rest

/-- `re.sub(r'\s+', ' ', s)`: collapse each run of whitespace to one space. -/
def collapseWs (xs : List Char) : List Char := collapseWsGo false xs

/-- `sanitize_title` from `app/parsers/mailchimp.py` lines 30-36. -/
def sanitize_title (subject : String) : String :=
  if subject = "" then "Untitled"
  else
    let cleaned := subject.data.filter sanitizeKeep
    let cleaned := chStrip pyIsSpace (collapseWs cleaned)
    if cleaned = [] then "Untitled" else ⟨cleaned⟩

/-- The campaign record: the field set of the `data` dict literal of
`parse_mailchimp` (lines 43-64), which is also the Campaign schema of the
data model (spec §3).  Counts are Python ints (`ℤ`), rates Python floats
(`ℚ`), missing values `none`. -/
structure Campaign where
  platform : String
  subject : Option String := none
  email_title : Option String := none
  unique_id : Option String := none
  sent_at : Option String := none
  delivered : Option ℤ := none
  opens : Option ℤ := none
  open_rate : Option ℚ := none
  clicks : Option ℤ := none
  click_rate : Option ℚ := none
  unsubscribes : Option ℤ := none
  unsubscribe_rate : Option ℚ := none
  spam_complaints : Option ℤ := none
  bounces : Option ℤ := none
  bounce_rate : Option ℚ := none
  hard_bounces : Option ℤ := none
  hard_bounce_rate : Option ℚ := none
  soft_bounces : Option ℤ := none
  soft_bounce_rate : Option ℚ := none
  ctor : Option ℚ := none
deriving DecidableEq, Repr

/-- Modelled from the spec: `generate_unique_id` from
`app/utils/id_generator.py`, which is not present in the source tree.
Spec §4.4: a deterministic digest over the tuple
`(sanitized_title, subject, sent_at, platform)`.  Modelled as an injective
string encoding of the tuple (determinism is all the claims rely on).
`subject` and `sent_at` are passed the possibly-`None` dict values. -/
def generate_unique_id (title : String) (subject sentAt : Option String)
    (platform : String) : String :=
  title ++ "|" ++ (subject.getD "None") ++ "|" ++ (sentAt.getD "None") ++ "|" ++ platform

/-- Loop state of `parse_mailchimp`: the `data` dict plus the local variable
`campaign_title` (assigned at the `Title` key but never read afterwards in
the source). -/
structure McState where
  data : Campaign
  campaign_title : Option String
deriving DecidableEq, Repr

/-- The `data` dict literal of `parse_mailchimp` lines 43-64: platform
`"mailchimp"`, every other field `None`. -/
def initMcData : Campaign := { platform := "mailchimp" }

/-- The `if key == ...` ladder of the key-value loop of `parse_mailchimp`
(lines 78-102), applied once `parse_kv` produced a key and a value.
`if not key: continue` also skips an empty-string key. -/
def mcStepKV (st : McState) (key val : String) : Except PyExn McState :=
  if key = "" then .ok st
    else if key = "Title" then
      .ok { st with campaign_title := some val,
                    data := { st.data with unique_id := some val } }
    else if key = "Subject Line" then
      .ok { st with data := { st.data with subject := some val } }
    else if key = "Delivery Date/Time" then
      .ok { st with data := { st.data with sent_at := some val } }
    else if key = "Successful Deliveries" then
      match pyInt (stripCommas val) with
      | .error e => .error e
      | .ok n => .ok { st with data := { st.data with delivered := some n } }
    else if key = "Recipients Who Opened" then
      match extract_number_and_percent val with
      | .error e => .error e
      | .ok np => .ok { st with data := { st.data with opens := np.1, open_rate := np.2 } }
    else if key = "Recipients Who Clicked" then
      match extract_number_and_percent val with
      | .error e => .error e
      | .ok np => .ok { st with data := { st.data with clicks := np.1, click_rate := np.2 } }
    else if key = "Total Unsubs" then
      match (if val = "0" then .ok (0 : ℤ) else pyInt (stripCommas val)) with
      | .error e => .error e
      | .ok n => .ok { st with data := { st.data with unsubscribes := some n } }
    else if key = "Total Abuse Complaints" then
      match (if val = "0" then .ok (0 : ℤ) else pyInt (stripCommas val)) with
      | .error e => .error e
      | .ok n => .ok { st with data := { st.data with spam_complaints := some n } }
    else if key = "Bounces" then
      match extract_number_and_percent val with
      | .error e => .error e
      | .ok np => .ok { st with data := { st.data with bounces := np.1, bounce_rate := np.2 } }
    else .ok st

/-- One iteration of the key-value loop of `parse_mailchimp` (lines 73-102),
for a line that is not a break line: unpack the line with `parse_kv`;
`if not key: continue` skips a `None` key (the empty-string key is skipped
inside the ladder). -/
def mcStep (st : McState) (line : String) : Except PyExn McState :=
  match parse_kv line.data with
  | (some key, some val) => mcStepKV st key val
  | _ => .ok st

/-- The break condition of the loop (lines 69-71): stop permanently at the
`"Clicks by URL"` / `"URL"` sub-table. -/
def isBreakLine (line : String) : Bool :=
  strStartsWith line "\"Clicks by URL\"" || strStartsWith line "\"URL\""

/-- The `for line in lines` loop of `parse_mailchimp` (lines 68-102). -/
def mcLoop : McState → List String → Except PyExn McState
  | st, [] => .ok st
  | st, l :: ls =>
    if isBreakLine l then .ok st
    else
      match mcStep st l with
      | .error e => .error e
      | .ok st2 => mcLoop st2 ls

/-- `lines = [l.strip() for l in text.splitlines() if l.strip()]` (line 41). -/
def pyLines (text : String) : List String :=
  (((chLines text.data).map (chStrip pyIsSpace)).filter (fun l => l ≠ [])).map
    (fun l => (⟨l⟩ : String))

/-- The return value `{"campaigns": [data]}` of `parse_mailchimp`. -/
structure McReturn where
  campaigns : List Campaign
deriving DecidableEq, Repr

/-- Python truthiness of an optional int: `None` and `0` are falsy. -/
def pyTruthyOptInt : Option ℤ → Bool
  | none => false
  | some n => n ≠ 0

/-- Lines 104-106 of `parse_mailchimp`:
`if data["opens"] and data["clicks"] and data["opens"] > 0:`
`    data["ctor"] = data["clicks"] / data["opens"]`
(`and` is Python truthiness; in the branch both values are present, so the
`getD 0` defaults are never what the division sees). -/
def applyCtor (d : Campaign) : Campaign :=
  if pyTruthyOptInt d.opens ∧ pyTruthyOptInt d.clicks ∧ 0 < d.opens.getD 0 then
    { d with ctor := some ((d.clicks.getD 0 : ℚ) / (d.opens.getD 0 : ℚ)) }
  else d

/-- Lines 108-110 of `parse_mailchimp`:
`if data["delivered"] and data["unsubscribes"] is not None and data["delivered"] > 0:`
`    data["unsubscribe_rate"] = data["unsubscribes"] / data["delivered"]`. -/
def applyUnsubRate (d : Campaign) : Campaign :=
  if pyTruthyOptInt d.delivered ∧ d.unsubscribes ≠ none ∧ 0 < d.delivered.getD 0 then
    { d with unsubscribe_rate := some ((d.unsubscribes.getD 0 : ℚ) / (d.delivered.getD 0 : ℚ)) }
  else d

/-- Lines 113-122 of `parse_mailchimp`: email title and unique id.  The
source reads `data.get("title", "")`, but the `data` dict literal has no
`"title"` key (the parsed Title value went into the local `campaign_title`
and into `data["unique_id"]`), so `.get` always returns the default `""`
and the sanitized title is always the sentinel. -/
def applyTitleId (d : Campaign) : Campaign :=
  let title := sanitize_title ""
  { d with email_title := some title,
           unique_id := some (generate_unique_id title d.subject d.sent_at "mailchimp") }

/-- The post-loop section of `parse_mailchimp` (lines 104-126), applied in
source order to the loop-final `data` dict, wrapped as
`{"campaigns": [data]}`. -/
def mcFinish (st : McState) : McReturn :=
  ⟨[applyTitleId (applyUnsubRate (applyCtor st.data))]⟩

/-- The body of `parse_mailchimp` as a function of its preprocessed line
sequence: run the key-value loop from the initial dict, then the post-loop
section. -/
def mcParseLines (ls : List String) : Except PyExn McReturn :=
  match mcLoop ⟨initMcData, none⟩ ls with
  | .error e => .error e
  | .ok st => .ok (mcFinish st)

/-- `parse_mailchimp` from `app/parsers/mailchimp.py` lines 39-126. -/
def parse_mailchimp (text : String) : Except PyExn McReturn :=
  mcParseLines (pyLines text)

/-- Modelled from the spec: one row of the classic multi-section
(mailerlite) report, whose parser `app/parsers/mailerlite_classic.py` is
not present in the source tree.  The spec (§4.2) leaves its internal rules
unspecified beyond the parser contract, so a minimal concrete reading is
used: a row `id|count` yields a campaign with that `unique_id` and
`delivered` count; rows whose count is not an int are skipped
(partial-success semantics). -/
def mlRow (l : String) : Option Campaign :=
  match chSplitOnChar '|' l.data with
  | [idc, nc] =>
    match pyInt (⟨nc⟩ : String) with
    | .ok n => some { platform := "mailerlite", unique_id := some (⟨idc⟩ : String),
                      delivered := some n }
    | .error _ => none
  | _ => none

/-- Modelled from the spec: `parse_mailerlite_classic` from
`app/parsers/mailerlite_classic.py` (not present in the source tree).
Honors the contract of spec §4.2: returns a sequence of campaigns; raises
`EmptyReportError` when the matched text has no candidate rows at all; a
row-level failure skips only that row, so "matched but every row invalid"
yields an empty sequence. -/
def parse_mailerlite_classic (text : String) : Except PyExn (List Campaign) :=
  let rows := (pyLines text).filter (fun l => l.data.contains '|')
  if rows = [] then .error (.emptyReport "Campaign report contained no result rows")
  else .ok (rows.filterMap mlRow)

/-- The value returned by `detect_and_parse`: `parse_mailchimp` returns the
dict `{"campaigns": [...]}` while `parse_mailerlite_classic` returns a list
of campaigns; `app/main.py` receives one or the other. -/
inductive DetectResult
  | mc (r : McReturn)
  | ml (cs : List Campaign)
deriving DecidableEq, Repr

/-- `detect_and_parse` from `app/parsers/detector.py` lines 4-13: mailchimp
signature first (`'Unique Id' in text and 'Send Date' in text and
'Open Rate' in text`), then the mailerlite-classic signature, else
`raise ValueError("Unsupported or unrecognized report format")`. -/
def detect_and_parse (text : String) : Except PyExn DetectResult :=
  if pyIn "Unique Id" text && pyIn "Send Date" text && pyIn "Open Rate" text then
    (parse_mailchimp text).map DetectResult.mc
  else if pyIn "Campaign report" text && pyIn "Campaign results" text then
    (parse_mailerlite_classic text).map DetectResult.ml
  else
    .error (.valueError "Unsupported or unrecognized report format")

/-- An entry of the `errors` list of `parse_report`. -/
structure ErrEntry where
  filename : String
  error : String
deriving DecidableEq, Repr

/-- An entry of the `results` list of `parse_report`
(`{"filename": ..., "data": {"campaign": ...}}`). -/
structure ResEntry where
  filename : String
  campaign : Campaign
deriving DecidableEq, Repr

/-- The request-scoped accumulator of `parse_report` (`app/main.py` lines
94-97): `results`, `errors`, `campaigns_by_id` (a Python dict, modelled as
an insertion-ordered association list whose stored value carries the
`"_file_index"` entry), and the running `file_index`. -/
structure BatchState where
  results : List ResEntry
  errors : List ErrEntry
  campaigns_by_id : List (String × Campaign × ℤ)
  file_index : ℤ
deriving DecidableEq, Repr

/-- The initial accumulator of one batch invocation. -/
def initState : BatchState := ⟨[], [], [], 0⟩

/-- `MAX_FILE_SIZE` default from `app/main.py` line 17 (10 MB). -/
def MAX_FILE_SIZE : ℕ := 10 * 1024 * 1024

/-- Modelled from the spec: `Campaign.has_meaningful_data` lives in the
missing `app/models.py`; spec §4.5: true iff at least one of `delivered`,
`opens`, `clicks` is non-null. -/
def hasMeaningfulData (c : Campaign) : Bool :=
  c.delivered.isSome || c.opens.isSome || c.clicks.isSome

/-- Python dict read `campaigns_by_id.get(unique_id)` on the modelled
association list: value of the first (unique) entry with this key. -/
def lookupId (m : List (String × Campaign × ℤ)) (k : String) : Option (Campaign × ℤ) :=
  (m.find? (fun e => decide (e.1 = k))).map (fun e => e.2)

/-- Python dict write `campaigns_by_id[k] = v`: replace the value in place
when the key is present (insertion order kept), else append. -/
def updateId (m : List (String × Campaign × ℤ)) (k : String) (v : Campaign × ℤ) :
    List (String × Campaign × ℤ) :=
  match m with
  | [] => [(k, v)]
  | e :: rest => if e.1 = k then (k, v) :: rest else e :: updateId rest k v

/-- The keys of the modelled dict, in insertion order. -/
def keysOf (m : List (String × Campaign × ℤ)) : List String := m.map (fun e => e.1)

/-- Python truthiness of an optional string: `None` and `""` are falsy
(`if unique_id:` in `app/main.py` line 140). -/
def pyTruthyOptStr : Option String → Bool
  | none => false
  | some u => decide (u ≠ "")

/-- `campaigns_by_id[unique_id].get("_file_index", -1)` — the stored file
index of the entry for `uid`, defaulting to `-1` (the entry, when present,
always carries its index). -/
def storedIdx (st : BatchState) (uid : String) : ℤ :=
  ((lookupId st.campaigns_by_id uid).map (fun e => e.2)).getD (-1)

/-- The body of `for campaign in campaigns` in `app/main.py` lines 133-148:
skip non-meaningful records; for a truthy `unique_id` (non-`None`,
non-empty), line 141's condition
`unique_id not in campaigns_by_id or file_index > campaigns_by_id[unique_id].get("_file_index", -1)`
decides whether the record (tagged with the current `file_index`) replaces
the dict entry; an id-less record is appended to `results` under its
originating filename. -/
def insert_campaign (file_index : ℤ) (filename : String) (st : BatchState)
    (c : Campaign) : BatchState :=
  if ¬ hasMeaningfulData c then st
  else if pyTruthyOptStr c.unique_id then
    if lookupId st.campaigns_by_id (c.unique_id.getD "") = none ∨
        file_index > storedIdx st (c.unique_id.getD "") then
      { st with campaigns_by_id :=
          updateId st.campaigns_by_id (c.unique_id.getD "") (c, file_index) }
    else st
  else { st with results := st.results ++ [⟨filename, c⟩] }

/-- The whole `for campaign in campaigns` loop over one file's campaign
list. -/
def process_campaigns (file_index : ℤ) (filename : String) (st : BatchState)
    (cs : List Campaign) : BatchState :=
  cs.foldl (insert_campaign file_index filename) st

/-- The `except` ladder of `app/main.py` lines 152-176 mapped to the error
entry it appends: the four taxonomy classes get their labelled messages;
builtin exceptions (`ValueError` from the detector, `AttributeError` from
iterating the mailchimp dict) fall through to `except Exception` whose
entry is `"Failed to parse: " + str(e)`. -/
def fileErrorEntry (filename : String) (e : PyExn) : ErrEntry :=
  match e with
  | .emptyReport m => ⟨filename, "Empty report: " ++ m⟩
  | .unsupportedFormat m => ⟨filename, "Unsupported format: " ++ m⟩
  | .invalidCampaign m => ⟨filename, "Invalid campaign: " ++ m⟩
  | .parseError m => ⟨filename, "Parse error: " ++ m⟩
  | .valueError m => ⟨filename, "Failed to parse: " ++ m⟩
  | .attributeError m => ⟨filename, "Failed to parse: " ++ m⟩

/-- Whether `b` is a UTF-8 continuation byte. -/
def isContByte (b : ℕ) : Bool := decide (0x80 ≤ b ∧ b < 0xC0)

/-- The byte-consuming loop of UTF-8 decoding with `errors="ignore"`:
a valid sequence is decoded and consumed; an invalid sequence drops its
lead byte and resumes, never raising.  (On an invalid multi-byte sequence
CPython may additionally skip already-valid continuation bytes; no result
below depends on that corner.) -/
def utf8Go : List ℕ → List Char
  | [] => []
  | b :: rest =>
    if b < 0x80 then Char.ofNat b :: utf8Go rest
    else if 0xC2 ≤ b ∧ b ≤ 0xDF then
      match rest with
      | b2 :: rest2 =>
        if isContByte b2 then Char.ofNat ((b - 0xC0) * 0x40 + (b2 - 0x80)) :: utf8Go rest2
        else utf8Go (b2 :: rest2)
      | [] => []
    else if 0xE0 ≤ b ∧ b ≤ 0xEF then
      match rest with
      | b2 :: b3 :: rest3 =>
        if isContByte b2 ∧ isContByte b3 ∧
            0x800 ≤ (b - 0xE0) * 0x1000 + (b2 - 0x80) * 0x40 + (b3 - 0x80) ∧
            ((b - 0xE0) * 0x1000 + (b2 - 0x80) * 0x40 + (b3 - 0x80) < 0xD800 ∨
              0xDFFF < (b - 0xE0) * 0x1000 + (b2 - 0x80) * 0x40 + (b3 - 0x80)) then
          Char.ofNat ((b - 0xE0) * 0x1000 + (b2 - 0x80) * 0x40 + (b3 - 0x80)) :: utf8Go rest3
        else utf8Go (b2 :: b3 :: rest3)
      | other => utf8Go other
    else if 0xF0 ≤ b ∧ b ≤ 0xF4 then
      match rest with
      | b2 :: b3 :: b4 :: rest4 =>
        if isContByte b2 ∧ isContByte b3 ∧ isContByte b4 ∧
            0x10000 ≤ (b - 0xF0) * 0x40000 + (b2 - 0x80) * 0x1000 + (b3 - 0x80) * 0x40 + (b4 - 0x80) ∧
            (b - 0xF0) * 0x40000 + (b2 - 0x80) * 0x1000 + (b3 - 0x80) * 0x40 + (b4 - 0x80) ≤ 0x10FFFF then
          Char.ofNat ((b - 0xF0) * 0x40000 + (b2 - 0x80) * 0x1000 + (b3 - 0x80) * 0x40 + (b4 - 0x80)) ::
            utf8Go rest4
        else utf8Go (b2 :: b3 :: b4 :: rest4)
      | other => utf8Go other
    else utf8Go rest

/-- `contents.decode("utf-8", errors="ignore")` as a total function. -/
def utf8DecodeIgnore (bs : List ℕ) : String := ⟨utf8Go bs⟩

/-- The `try: text = contents.decode("utf-8", errors="ignore")` of
`app/main.py` lines 114-121.  With the `ignore` error handler the utf-8
codec consumes every invalid sequence instead of raising, so the result is
always `.ok`; the `Except` shape is kept to mirror the source's
try/except. -/
def pyDecodeUtf8Ignore (bs : List ℕ) : Except PyExn String :=
  .ok (utf8DecodeIgnore bs)

/-- Python `s.lower()` (ASCII range). -/
def pyLower (s : String) : String := ⟨s.data.map Char.toLower⟩

/-- Python `s.endswith(suffix)`. -/
def strEndsWith (s suffix : String) : Bool := suffix.data.isSuffixOf s.data

/-- Processing of one uploaded file: the body of the
`for filename, contents in file_contents` loop of `app/main.py` lines
99-176.  Every failure path appends one entry to `errors` and leaves the
rest of the accumulator unchanged; `file_index` is incremented only after
a file whose campaign loop completes (line 150). -/
def file_step (st : BatchState) (file : String × List ℕ) : BatchState :=
  let filename := file.1
  let contents := file.2
  if ¬ strEndsWith (pyLower filename) ".csv" then
    { st with errors := st.errors ++ [⟨filename, "Only CSV files supported"⟩] }
  else if contents.length > MAX_FILE_SIZE then
    { st with errors := st.errors ++ [⟨filename, "File too large. Maximum size is 10MB"⟩] }
  else
    match pyDecodeUtf8Ignore contents with
    | .error e =>
      { st with errors := st.errors ++ [⟨filename, "Failed to decode file: " ++ (match e with
          | .valueError m => m | .attributeError m => m | .emptyReport m => m
          | .unsupportedFormat m => m | .invalidCampaign m => m | .parseError m => m)⟩] }
    | .ok text =>
      match detect_and_parse text with
      | .error e => { st with errors := st.errors ++ [fileErrorEntry filename e] }
      | .ok (.mc _) =>
        -- `campaigns` is the dict `{"campaigns": [...]}`: it is truthy, so the
        -- `if not campaigns` branch is skipped; `for campaign in campaigns`
        -- iterates over the dict's keys, and the first key, the string
        -- "campaigns", has no `has_meaningful_data` attribute, raising
        -- AttributeError, which `except Exception` turns into a per-file error.
        { st with errors := st.errors ++
          [⟨filename, "Failed to parse: \x27str\x27 object has no attribute \x27has_meaningful_data\x27"⟩] }
      | .ok (.ml cs) =>
        if cs.isEmpty then
          { st with errors := st.errors ++ [⟨filename, "No campaigns found in file"⟩] }
        else
          let st2 := process_campaigns st.file_index filename st cs
          { st2 with file_index := st2.file_index + 1 }

/-- The whole per-file loop, threading the accumulator left to right in
upload order. -/
def run_files (st : BatchState) (files : List (String × List ℕ)) : BatchState :=
  files.foldl file_step st

/-- The response `{"results": ..., "errors": ...}` of `parse_report`. -/
structure BatchOutput where
  results : List ResEntry
  errors : List ErrEntry
deriving DecidableEq, Repr

/-- `parse_report` from `app/main.py` lines 94-188 (the core after the
transport-level file-count/total-size checks): process every file, then
flush `campaigns_by_id` in insertion order (lines 178-183), each merged
record labelled `"deduplicated"` with its `"_file_index"` popped. -/
def parse_report (files : List (String × List ℕ)) : BatchOutput :=
  let st := run_files initState files
  ⟨st.results ++ st.campaigns_by_id.map (fun e => ⟨"deduplicated", e.2.1⟩), st.errors⟩

/-- ASCII bytes of a string (used to build concrete uploaded-file contents). -/
def strBytes (s : String) : List ℕ := s.data.map Char.toNat

/-- The rule `parse_mailchimp` actually applies to CTOR (lines 104-106):
computed only when opens and clicks are both present and truthy (non-zero)
and opens is positive; otherwise the field keeps its `None`. -/
def ctorRule (opens clicks : Option ℤ) : Option ℚ :=
  if pyTruthyOptInt opens ∧ pyTruthyOptInt clicks ∧ 0 < opens.getD 0 then
    some ((clicks.getD 0 : ℚ) / (opens.getD 0 : ℚ))
  else none

/-- The rule `parse_mailchimp` actually applies to the unsubscribe rate
(lines 108-110): computed only when delivered is present and truthy and
positive and unsubscribes is present; otherwise the field keeps its
`None`. -/
def unsubRule (delivered unsubs : Option ℤ) : Option ℚ :=
  if pyTruthyOptInt delivered ∧ unsubs ≠ none ∧ 0 < delivered.getD 0 then
    some ((unsubs.getD 0 : ℚ) / (delivered.getD 0 : ℚ))
  else none

/-- The record `parse_mailchimp` produces when no recognizable key-value
line contributes a field: platform tag, sentinel title, generated id,
every other field null. -/
def bareUntitledCampaign : Campaign :=
  { platform := "mailchimp", email_title := some "Untitled",
    unique_id := some (generate_unique_id "Untitled" none none "mailchimp") }

/-- A minimal mailerlite-row campaign (used in deduplication scenarios). -/
def mlC (id : String) (n : ℤ) : Campaign :=
  { platform := "mailerlite", unique_id := some id, delivered := some n }

/-- The spec's concrete tabular-aggregate scenario input: header row plus
one data row, comma-separated, unquoted. -/
def c1Text : String :=
  "Title,Subject,Unique Id,Send Date,Successful Deliveries,Unique Opens,Open Rate,Unique Clicks,Click Rate,Abuse Complaints,Hard Bounces,Soft Bounces,Unsubscribes\nT,S,uid1,2024-01-01,100,50,50%,20,20%,0,1,0,2"

/-- Key-value input with a zero delivered count and a non-zero unsubscribe
count. -/
def c2Text : String :=
  "\"Successful Deliveries:\",\"0\"\n\"Total Unsubs:\",\"2\""

/-- Key-value input with positive delivered/opens/clicks/unsubscribes. -/
def c2wText : String :=
  "\"Successful Deliveries:\",\"100\"\n\"Recipients Who Opened:\",\"50 (50.0%)\"\n\"Recipients Who Clicked:\",\"20 (20.0%)\"\n\"Total Unsubs:\",\"2\""

/-- The campaign `parse_mailchimp` produces from `c2Text`. -/
def c2Campaign : Campaign :=
  { bareUntitledCampaign with delivered := some 0, unsubscribes := some 2 }

/-- The campaign `parse_mailchimp` produces from `c2wText`. -/
def c2wCampaign : Campaign :=
  { bareUntitledCampaign with
    delivered := some 100
    opens := some 50
    open_rate := some (1 / 2)
    clicks := some 20
    click_rate := some (1 / 5)
    unsubscribes := some 2
    unsubscribe_rate := some (1 / 50)
    ctor := some (2 / 5) }

/-- Key-value input carrying a non-empty, already-clean Title value. -/
def c4Text : String := "\"Title:\",\"Hello World\""

/-- Input that passes the mailchimp signature check but has no recognizable
key-value rows at all. -/
def c5Text : String := "Unique Id Send Date Open Rate"

/-- Bytes of a single mailerlite-classic file in which the same unique id
occurs twice. -/
def c3Bytes : List ℕ := strBytes "Campaign report\nCampaign results\nX|1\nX|2"

/-- Bytes of plain prose with none of the recognized signature tokens. -/
def c6Bytes : List ℕ := strBytes "hello world"

/-- Whether a campaign would enter the dedup group of unique id `x`:
it survives the meaningfulness gate and carries exactly that id. -/
def dedupPred (x : String) (c : Campaign) : Bool :=
  hasMeaningfulData c && decide (c.unique_id = some x)

/-- Whether a parser outcome is an `EmptyReportError`. -/
def isEmptyReportErr : Except PyExn McReturn → Bool
  | .error (.emptyReport _) => true
  | _ => false

/-- Number of campaigns of a successful parser outcome (`none` on error). -/
def okCampaignCount : Except PyExn McReturn → Option ℕ
  | .ok r => some r.campaigns.length
  | .error _ => none

/-! ### Theorems -/

/-- `insert_campaign` never touches the error list. -/
theorem insert_campaign_errors (i : ℤ) (fn : String) (st : BatchState) (c : Campaign) :
    (insert_campaign i fn st c).errors = st.errors := by
  unfold insert_campaign
  repeat' split
  all_goals rfl

/-- `insert_campaign` never touches the running file index. -/
theorem insert_campaign_file_index (i : ℤ) (fn : String) (st : BatchState) (c : Campaign) :
    (insert_campaign i fn st c).file_index = st.file_index := by
  unfold insert_campaign
  repeat' split
  all_goals rfl

/-- The campaign loop over one file never touches the error list. -/
theorem process_campaigns_errors (i : ℤ) (fn : String) (cs : List Campaign) :
    ∀ st : BatchState, (process_campaigns i fn st cs).errors = st.errors := by
  induction cs with
  | nil => intro st; rfl
  | cons c cs ih =>
    intro st
    have h1 : process_campaigns i fn st (c :: cs) =
        process_campaigns i fn (insert_campaign i fn st c) cs := rfl
    rw [h1, ih, insert_campaign_errors]

/-- The per-file exception ladder always produces an entry for the file it
was processing. -/
theorem fileErrorEntry_filename (fn : String) (e : PyExn) :
    fileErrorEntry fn e = ⟨fn, (fileErrorEntry fn e).error⟩ := by
  cases e <;> rfl

/-- C1: the claim asserts the spec's concrete tabular input yields one
Campaign with `delivered=100, opens=50, clicks=20` (etc.).  In the code the
tabular signature selects `parse_mailchimp`, a key-value parser: no line of
the tabular input contains the `","` key-value separator, so every field
stays null — in particular `delivered` is `None`, not `100`. -/
theorem C1_counterexample :
    detect_and_parse c1Text = .ok (.mc ⟨[bareUntitledCampaign]⟩) ∧
    bareUntitledCampaign.delivered = none ∧
    decide (bareUntitledCampaign.delivered = some 100) = false := by
  refine ⟨by decide, rfl, by decide⟩

/-- C1 (amended): input matching the tabular-aggregate signature is handed
to the key-value single-campaign parser `parse_mailchimp`; the spec's
concrete tabular input yields exactly one campaign with platform
`mailchimp`, sentinel email title, a generated unique id, and every count
and rate field null. -/
theorem C1_theorem :
    detect_and_parse c1Text = .ok (.mc ⟨[bareUntitledCampaign]⟩) ∧
    bareUntitledCampaign =
      { platform := "mailchimp", email_title := some "Untitled",
        unique_id := some (generate_unique_id "Untitled" none none "mailchimp") } := by
  exact ⟨by decide, rfl⟩

/-- C2: the claim asserts a rate is exactly `0` when its denominator is `0`
or absent.  On input with `Successful Deliveries = 0` and `Total Unsubs = 2`
the code leaves `unsubscribe_rate` as `None` (the `if data["delivered"]`
guard is falsy for 0), not `0`. -/
theorem C2_counterexample :
    parse_mailchimp c2Text = .ok ⟨[c2Campaign]⟩ ∧
    c2Campaign.delivered = some 0 ∧
    c2Campaign.unsubscribes = some 2 ∧
    c2Campaign.unsubscribe_rate = none ∧
    decide (c2Campaign.unsubscribe_rate = some 0) = false := by
  refine ⟨by decide, rfl, rfl, rfl, by decide⟩

/-- C3: the claim asserts that when one unique id recurs within a single
file, the later occurrence wins.  Uploading one file whose rows are
`X|1` then `X|2` leaves the first occurrence (`delivered = 1`) as the
surviving deduplicated record: the strict `file_index >` comparison never
replaces an entry of equal file index. -/
theorem C3_counterexample :
    parse_report [("a.csv", c3Bytes)] =
      ⟨[⟨"deduplicated", mlC "X" 1⟩], []⟩ ∧
    decide (mlC "X" 1 = mlC "X" 2) = false := by
  refine ⟨by decide, by decide⟩

/-- C4: the claim (and the spec) want `email_title` to be the sanitized
Title value.  The source stores the parsed Title only in the unused local
`campaign_title` and then reads `data.get("title", "")` — a key the dict
never has — so `email_title` is always the sentinel `"Untitled"`, even for
the input `"Title:","Hello World"` whose sanitized title would be
`"Hello World"`. -/
theorem C4_theorem :
    parse_mailchimp c4Text = .ok ⟨[bareUntitledCampaign]⟩ ∧
    bareUntitledCampaign.email_title = some "Untitled" ∧
    sanitize_title "Hello World" = "Hello World" := by
  refine ⟨by decide, rfl, by decide⟩

/-- C5: the claim asserts structurally empty input (after a detector match)
fails with `EmptyReportError`.  The input `"Unique Id Send Date Open Rate"`
passes the mailchimp signature check and has no recognizable key-value row,
yet the parser returns a singleton campaign list (all metric fields null)
instead of failing. -/
theorem C5_counterexample :
    detect_and_parse c5Text = .ok (.mc ⟨[bareUntitledCampaign]⟩) ∧
    bareUntitledCampaign.delivered = none ∧
    bareUntitledCampaign.opens = none ∧
    bareUntitledCampaign.clicks = none := by
  refine ⟨by decide, rfl, rfl, rfl⟩

/-- C6: the claim asserts that unrecognized input is reported as the file's
`Unsupported format` error entry.  Detection does fail before any parser
runs, but it raises the builtin `ValueError`, which `app/main.py`'s
`except UnsupportedFormatError` handler cannot catch; the entry actually
recorded comes from `except Exception`: `"Failed to parse: Unsupported or
unrecognized report format"`. -/
theorem C6_theorem :
    parse_report [("a.csv", c6Bytes)] =
      ⟨[], [⟨"a.csv", "Failed to parse: Unsupported or unrecognized report format"⟩]⟩ := by
  decide

/-- C7: every error arising while one file is processed is recorded as that
file's entry in the error list, leaving the rest of the accumulator exactly
as it was, and the batch loop always continues with the remaining files
(the model of the per-file loop is a total function: no failure from file
content escapes the file boundary). -/
theorem C7_theorem (st : BatchState) (f : String × List ℕ) (rest : List (String × List ℕ)) :
    ((∃ msg, file_step st f = { st with errors := st.errors ++ [⟨f.1, msg⟩] }) ∨
      (file_step st f).errors = st.errors) ∧
    run_files st (f :: rest) = run_files (file_step st f) rest := by
  constructor
  · rcases f with ⟨name, contents⟩
    by_cases h1 : strEndsWith (pyLower name) ".csv"
    · by_cases h2 : contents.length > MAX_FILE_SIZE
      · exact Or.inl ⟨"File too large. Maximum size is 10MB",
          by unfold file_step; simp [h1, h2]⟩
      · rcases hdet : detect_and_parse (utf8DecodeIgnore contents) with e | r
        · refine Or.inl ?_
          rcases e with m | m | m | m | m | m
          · exact ⟨"Failed to parse: " ++ m,
              by unfold file_step; simp [h1, h2, pyDecodeUtf8Ignore, hdet, fileErrorEntry]⟩
          · exact ⟨"Failed to parse: " ++ m,
              by unfold file_step; simp [h1, h2, pyDecodeUtf8Ignore, hdet, fileErrorEntry]⟩
          · exact ⟨"Empty report: " ++ m,
              by unfold file_step; simp [h1, h2, pyDecodeUtf8Ignore, hdet, fileErrorEntry]⟩
          · exact ⟨"Unsupported format: " ++ m,
              by unfold file_step; simp [h1, h2, pyDecodeUtf8Ignore, hdet, fileErrorEntry]⟩
          · exact ⟨"Invalid campaign: " ++ m,
              by unfold file_step; simp [h1, h2, pyDecodeUtf8Ignore, hdet, fileErrorEntry]⟩
          · exact ⟨"Parse error: " ++ m,
              by unfold file_step; simp [h1, h2, pyDecodeUtf8Ignore, hdet, fileErrorEntry]⟩
        · rcases r with r | cs
          · exact Or.inl
              ⟨"Failed to parse: \x27str\x27 object has no attribute \x27has_meaningful_data\x27",
                by unfold file_step; simp [h1, h2, pyDecodeUtf8Ignore, hdet]⟩
          · by_cases h3 : cs.isEmpty
            · exact Or.inl ⟨"No campaigns found in file",
                by unfold file_step; simp [h1, h2, pyDecodeUtf8Ignore, hdet, h3]⟩
            · refine Or.inr ?_
              unfold file_step
              simp [h1, h2, pyDecodeUtf8Ignore, hdet, h3, process_campaigns_errors]
    · exact Or.inl ⟨"Only CSV files supported", by unfold file_step; simp [h1]⟩
  · rfl

/-- C9: a file whose lowercased name does not end in `.csv` contributes
exactly the error entry `Only CSV files supported`, for every possible
content: the batch state is otherwise untouched, so the content never
reaches detection or parsing. -/
theorem C9_theorem (st : BatchState) (name : String) (contents : List ℕ)
    (h : strEndsWith (pyLower name) ".csv" = false) :
    file_step st (name, contents) =
      { st with errors := st.errors ++ [⟨name, "Only CSV files supported"⟩] } := by
  unfold file_step
  simp [h]

/-- Witness for C9 at a concrete non-CSV file. -/
theorem C9_witness :
    strEndsWith (pyLower "a.txt") ".csv" = false ∧
    file_step initState ("a.txt", [104, 105]) =
      { initState with errors := initState.errors ++ [⟨"a.txt", "Only CSV files supported"⟩] } :=
  ⟨by decide, C9_theorem initState "a.txt" [104, 105] (by decide)⟩

/-- The key-value loop ignores everything from the first break line on:
lines after (and including) the marker never influence the final state. -/
theorem mcLoop_break (m : String) (hm : isBreakLine m = true) (suf : List String) :
    ∀ pre : List String, (∀ l ∈ pre, isBreakLine l = false) →
    ∀ st : McState, mcLoop st (pre ++ m :: suf) = mcLoop st pre := by
  intro pre
  induction pre with
  | nil =>
    intro _ st
    simp [mcLoop, hm]
  | cons l ls ih =>
    intro h st
    have hl : isBreakLine l = false := h l (by simp)
    show mcLoop st (l :: (ls ++ m :: suf)) = mcLoop st (l :: ls)
    simp only [mcLoop, hl]
    cases hstep : mcStep st l with
    | error e => rfl
    | ok st2 => exact ih (fun x hx => h x (by simp [hx])) st2

/-- C8: the campaign returned by the key-value parser depends only on the
lines preceding the first detail-breakdown marker (`"Clicks by URL"` /
`"URL"` line): for every suffix placed after the marker, parsing the lines
truncated at the marker and parsing them with the marker and suffix present
yield the same result. -/
theorem C8_theorem (pre suf : List String) (m : String)
    (hpre : ∀ l ∈ pre, isBreakLine l = false) (hm : isBreakLine m = true) :
    mcParseLines (pre ++ m :: suf) = mcParseLines pre := by
  unfold mcParseLines
  rw [mcLoop_break m hm suf pre hpre]

/-- Witness for C8 at a concrete prefix, marker and suffix. -/
theorem C8_witness :
    mcParseLines ["\"Title:\",\"Hi\"", "\"URL\",\"Clicks\"", "\"Successful Deliveries:\",\"99\""] =
      mcParseLines ["\"Title:\",\"Hi\""] :=
  C8_theorem ["\"Title:\",\"Hi\""] ["\"Successful Deliveries:\",\"99\""] "\"URL\",\"Clicks\""
    (by decide) (by decide)

/-- No entry of the per-file exception ladder carries a decode-failure
message. -/
theorem fileErrorEntry_not_decode (fn : String) (e : PyExn) :
    strStartsWith (fileErrorEntry fn e).error "Failed to decode" = false := by
  cases e <;> rfl

/-- Every file contributes only entries that are not decode failures. -/
theorem file_step_errors_decode (st : BatchState) (f : String × List ℕ) :
    ∃ extra, (file_step st f).errors = st.errors ++ extra ∧
      ∀ e ∈ extra, strStartsWith e.error "Failed to decode" = false := by
  rcases f with ⟨name, contents⟩
  by_cases h1 : strEndsWith (pyLower name) ".csv"
  · by_cases h2 : contents.length > MAX_FILE_SIZE
    · refine ⟨[⟨name, "File too large. Maximum size is 10MB"⟩],
        by unfold file_step; simp [h1, h2], ?_⟩
      intro e he
      rcases List.mem_singleton.mp he with rfl
      rfl
    · rcases hdet : detect_and_parse (utf8DecodeIgnore contents) with e | r
      · refine ⟨[fileErrorEntry name e],
          by unfold file_step; simp [h1, h2, pyDecodeUtf8Ignore, hdet], ?_⟩
        intro x hx
        rcases List.mem_singleton.mp hx with rfl
        exact fileErrorEntry_not_decode name e
      · rcases r with r | cs
        · refine
            ⟨[⟨name, "Failed to parse: \x27str\x27 object has no attribute \x27has_meaningful_data\x27"⟩],
              by unfold file_step; simp [h1, h2, pyDecodeUtf8Ignore, hdet], ?_⟩
          intro x hx
          rcases List.mem_singleton.mp hx with rfl
          rfl
        · by_cases h3 : cs.isEmpty
          · refine ⟨[⟨name, "No campaigns found in file"⟩],
              by unfold file_step; simp [h1, h2, pyDecodeUtf8Ignore, hdet, h3], ?_⟩
            intro x hx
            rcases List.mem_singleton.mp hx with rfl
            rfl
          · refine ⟨[], ?_, by simp⟩
            unfold file_step
            simp [h1, h2, pyDecodeUtf8Ignore, hdet, h3, process_campaigns_errors]
  · refine ⟨[⟨name, "Only CSV files supported"⟩], by unfold file_step; simp [h1], ?_⟩
    intro e he
    rcases List.mem_singleton.mp he with rfl
    rfl

/-- Accumulated over any batch, no error entry is a decode failure. -/
theorem run_files_errors_decode (files : List (String × List ℕ)) :
    ∀ st : BatchState,
      (∀ e ∈ st.errors, strStartsWith e.error "Failed to decode" = false) →
      ∀ e ∈ (run_files st files).errors, strStartsWith e.error "Failed to decode" = false := by
  induction files with
  | nil => intro st h; exact h
  | cons f fs ih =>
    intro st h e he
    obtain ⟨extra, heq, hex⟩ := file_step_errors_decode st f
    refine ih (file_step st f) ?_ e he
    intro x hx
    rw [heq] at hx
    rcases List.mem_append.mp hx with hx1 | hx2
    · exact h x hx1
    · exact hex x hx2

/-- C10: decoding uses UTF-8 with `errors="ignore"`, which succeeds for
every byte sequence, so the `Failed to decode` branch of the per-file loop
is unreachable — no batch ever records an error entry starting with
`Failed to decode` — and undecodable bytes are simply dropped from the
text (here the invalid byte `0xFF` between `a` and `b`). -/
theorem C10_theorem :
    (∀ (files : List (String × List ℕ)) (e : ErrEntry),
        e ∈ (parse_report files).errors →
          strStartsWith e.error "Failed to decode" = false) ∧
    utf8DecodeIgnore [97, 255, 98] = "ab" := by
  constructor
  · intro files e he
    exact run_files_errors_decode files initState (by intro x hx; cases hx) e he
  · decide

/-- Witness for C10 at a concrete batch that does record an error. -/
theorem C10_witness :
    strStartsWith (ErrEntry.mk "a.txt" "Only CSV files supported").error
      "Failed to decode" = false :=
  C10_theorem.1 [("a.txt", [])] ⟨"a.txt", "Only CSV files supported"⟩ (by decide)

/-- `int()` only ever raises `ValueError`. -/
theorem pyInt_err (s : String) (e : PyExn) (h : pyInt s = .error e) :
    ∃ m, e = .valueError m := by
  unfold pyInt at h
  repeat' split at h
  all_goals first
    | exact Except.noConfusion h
    | exact ⟨_, (Except.error.inj h).symm⟩

/-- `float()` only ever raises `ValueError`. -/
theorem pyFloatDD_err (ds : List Char) (e : PyExn) (h : pyFloatDD ds = .error e) :
    ∃ m, e = .valueError m := by
  unfold pyFloatDD at h
  repeat' split at h
  all_goals first
    | exact Except.noConfusion h
    | exact ⟨_, (Except.error.inj h).symm⟩

/-- The inner number component of `extract_number_and_percent`. -/
theorem extract_num_err (v : String) (e : PyExn)
    (h : (match findRun (fun c => c.isDigit || c = ',') v.data with
        | some run => (pyInt (⟨run.filter (fun c => c ≠ ',')⟩ : String)).map some
        | none => (.ok none : Except PyExn (Option ℤ))) = .error e) :
    ∃ m, e = .valueError m := by
  split at h
  · rcases hpi : pyInt _ with ei | n <;> rw [hpi] at h
    · have he : ei = e := Except.error.inj h
      exact he ▸ pyInt_err _ ei hpi
    · exact Except.noConfusion h
  · exact Except.noConfusion h

/-- The inner percentage component of `extract_number_and_percent`. -/
theorem extract_pct_err (v : String) (e : PyExn)
    (h : (match findPctGroup v.data with
        | some g => (pyFloatDD g).map (fun q => some (q / 100))
        | none => (.ok none : Except PyExn (Option ℚ))) = .error e) :
    ∃ m, e = .valueError m := by
  split at h
  · rcases hf : pyFloatDD _ with ef | q <;> rw [hf] at h
    · have he : ef = e := Except.error.inj h
      exact he ▸ pyFloatDD_err _ ef hf
    · exact Except.noConfusion h
  · exact Except.noConfusion h

/-- `extract_number_and_percent` only ever raises `ValueError`. -/
theorem extract_err (v : String) (e : PyExn)
    (h : extract_number_and_percent v = .error e) : ∃ m, e = .valueError m := by
  unfold extract_number_and_percent at h
  split at h
  · exact Except.noConfusion h
  · split at h
    · rename_i heq
      have he := Except.error.inj h
      exact he ▸ extract_num_err v _ heq
    · split at h
      · rename_i heq
        have he := Except.error.inj h
        exact he ▸ extract_pct_err v _ heq
      · exact Except.noConfusion h

/-- One loop iteration of the key-value parser only ever raises
`ValueError`. -/
theorem mcStepKV_err (st : McState) (key val : String) (e : PyExn)
    (h : mcStepKV st key val = .error e) : ∃ m, e = .valueError m := by
  unfold mcStepKV at h
  by_cases h1 : key = ""
  · rw [if_pos h1] at h; exact Except.noConfusion h
  · rw [if_neg h1] at h
    by_cases h2 : key = "Title"
    · rw [if_pos h2] at h; exact Except.noConfusion h
    · rw [if_neg h2] at h
      by_cases h3 : key = "Subject Line"
      · rw [if_pos h3] at h; exact Except.noConfusion h
      · rw [if_neg h3] at h
        by_cases h4 : key = "Delivery Date/Time"
        · rw [if_pos h4] at h; exact Except.noConfusion h
        · rw [if_neg h4] at h
          by_cases h5 : key = "Successful Deliveries"
          · rw [if_pos h5] at h
            rcases hpi : pyInt (stripCommas val) with e1 | n <;> rw [hpi] at h
            · exact (Except.error.inj h) ▸ pyInt_err _ _ hpi
            · exact Except.noConfusion h
          · rw [if_neg h5] at h
            by_cases h6 : key = "Recipients Who Opened"
            · rw [if_pos h6] at h
              rcases hx : extract_number_and_percent val with e1 | np <;> rw [hx] at h
              · exact (Except.error.inj h) ▸ extract_err _ _ hx
              · exact Except.noConfusion h
            · rw [if_neg h6] at h
              by_cases h7 : key = "Recipients Who Clicked"
              · rw [if_pos h7] at h
                rcases hx : extract_number_and_percent val with e1 | np <;> rw [hx] at h
                · exact (Except.error.inj h) ▸ extract_err _ _ hx
                · exact Except.noConfusion h
              · rw [if_neg h7] at h
                by_cases h8 : key = "Total Unsubs"
                · rw [if_pos h8] at h
                  by_cases hv : val = "0"
                  · rw [if_pos hv] at h; exact Except.noConfusion h
                  · rw [if_neg hv] at h
                    rcases hpi : pyInt (stripCommas val) with e1 | n <;> rw [hpi] at h
                    · exact (Except.error.inj h) ▸ pyInt_err _ _ hpi
                    · exact Except.noConfusion h
                · rw [if_neg h8] at h
                  by_cases h9 : key = "Total Abuse Complaints"
                  · rw [if_pos h9] at h
                    by_cases hv : val = "0"
                    · rw [if_pos hv] at h; exact Except.noConfusion h
                    · rw [if_neg hv] at h
                      rcases hpi : pyInt (stripCommas val) with e1 | n <;> rw [hpi] at h
                      · exact (Except.error.inj h) ▸ pyInt_err _ _ hpi
                      · exact Except.noConfusion h
                  · rw [if_neg h9] at h
                    by_cases h10 : key = "Bounces"
                    · rw [if_pos h10] at h
                      rcases hx : extract_number_and_percent val with e1 | np <;> rw [hx] at h
                      · exact (Except.error.inj h) ▸ extract_err _ _ hx
                      · exact Except.noConfusion h
                    · rw [if_neg h10] at h; exact Except.noConfusion h

/-- One loop iteration only ever raises `ValueError`. -/
theorem mcStep_err (st : McState) (l : String) (e : PyExn)
    (h : mcStep st l = .error e) : ∃ m, e = .valueError m := by
  unfold mcStep at h
  rcases hkv : parse_kv l.data with ⟨k, v⟩
  rw [hkv] at h
  rcases k with _ | key
  · exact Except.noConfusion h
  · rcases v with _ | val
    · exact Except.noConfusion h
    · exact mcStepKV_err st key val e h

/-- The whole key-value loop only ever raises `ValueError`. -/
theorem mcLoop_err (ls : List String) :
    ∀ (st : McState) (e : PyExn), mcLoop st ls = .error e → ∃ m, e = .valueError m := by
  induction ls with
  | nil => intro st e h; exact Except.noConfusion h
  | cons l ls ih =>
    intro st e h
    simp only [mcLoop] at h
    split at h
    · exact Except.noConfusion h
    · split at h
      · rename_i heq
        exact (Except.error.inj h) ▸ mcStep_err st l _ heq
      · exact ih _ e h

/-- The post-loop section always wraps exactly one campaign. -/
theorem mcFinish_length (st : McState) : (mcFinish st).campaigns.length = 1 := rfl

/-- The ladder never writes the `ctor` or `unsubscribe_rate` keys: those
stay whatever they were (the loop leaves them `None`). -/
theorem mcStepKV_keeps (st : McState) (key val : String) (st2 : McState)
    (h : mcStepKV st key val = .ok st2) :
    st2.data.ctor = st.data.ctor ∧ st2.data.unsubscribe_rate = st.data.unsubscribe_rate := by
  unfold mcStepKV at h
  by_cases h1 : key = ""
  · rw [if_pos h1] at h; obtain rfl := Except.ok.inj h; exact ⟨rfl, rfl⟩
  · rw [if_neg h1] at h
    by_cases h2 : key = "Title"
    · rw [if_pos h2] at h; obtain rfl := Except.ok.inj h; exact ⟨rfl, rfl⟩
    · rw [if_neg h2] at h
      by_cases h3 : key = "Subject Line"
      · rw [if_pos h3] at h; obtain rfl := Except.ok.inj h; exact ⟨rfl, rfl⟩
      · rw [if_neg h3] at h
        by_cases h4 : key = "Delivery Date/Time"
        · rw [if_pos h4] at h; obtain rfl := Except.ok.inj h; exact ⟨rfl, rfl⟩
        · rw [if_neg h4] at h
          by_cases h5 : key = "Successful Deliveries"
          · rw [if_pos h5] at h
            rcases hpi : pyInt (stripCommas val) with e1 | n <;> rw [hpi] at h
            · exact Except.noConfusion h
            · obtain rfl := Except.ok.inj h; exact ⟨rfl, rfl⟩
          · rw [if_neg h5] at h
            by_cases h6 : key = "Recipients Who Opened"
            · rw [if_pos h6] at h
              rcases hx : extract_number_and_percent val with e1 | np <;> rw [hx] at h
              · exact Except.noConfusion h
              · obtain rfl := Except.ok.inj h; exact ⟨rfl, rfl⟩
            · rw [if_neg h6] at h
              by_cases h7 : key = "Recipients Who Clicked"
              · rw [if_pos h7] at h
                rcases hx : extract_number_and_percent val with e1 | np <;> rw [hx] at h
                · exact Except.noConfusion h
                · obtain rfl := Except.ok.inj h; exact ⟨rfl, rfl⟩
              · rw [if_neg h7] at h
                by_cases h8 : key = "Total Unsubs"
                · rw [if_pos h8] at h
                  by_cases hv : val = "0"
                  · rw [if_pos hv] at h; obtain rfl := Except.ok.inj h; exact ⟨rfl, rfl⟩
                  · rw [if_neg hv] at h
                    rcases hpi : pyInt (stripCommas val) with e1 | n <;> rw [hpi] at h
                    · exact Except.noConfusion h
                    · obtain rfl := Except.ok.inj h; exact ⟨rfl, rfl⟩
                · rw [if_neg h8] at h
                  by_cases h9 : key = "Total Abuse Complaints"
                  · rw [if_pos h9] at h
                    by_cases hv : val = "0"
                    · rw [if_pos hv] at h; obtain rfl := Except.ok.inj h; exact ⟨rfl, rfl⟩
                    · rw [if_neg hv] at h
                      rcases hpi : pyInt (stripCommas val) with e1 | n <;> rw [hpi] at h
                      · exact Except.noConfusion h
                      · obtain rfl := Except.ok.inj h; exact ⟨rfl, rfl⟩
                  · rw [if_neg h9] at h
                    by_cases h10 : key = "Bounces"
                    · rw [if_pos h10] at h
                      rcases hx : extract_number_and_percent val with e1 | np <;> rw [hx] at h
                      · exact Except.noConfusion h
                      · obtain rfl := Except.ok.inj h; exact ⟨rfl, rfl⟩
                    · rw [if_neg h10] at h; obtain rfl := Except.ok.inj h; exact ⟨rfl, rfl⟩

/-- One loop iteration never writes `ctor` or `unsubscribe_rate`. -/
theorem mcStep_keeps (st : McState) (l : String) (st2 : McState)
    (h : mcStep st l = .ok st2) :
    st2.data.ctor = st.data.ctor ∧ st2.data.unsubscribe_rate = st.data.unsubscribe_rate := by
  unfold mcStep at h
  rcases hkv : parse_kv l.data with ⟨k, v⟩
  rw [hkv] at h
  rcases k with _ | key
  · obtain rfl := Except.ok.inj h; exact ⟨rfl, rfl⟩
  · rcases v with _ | val
    · obtain rfl := Except.ok.inj h; exact ⟨rfl, rfl⟩
    · exact mcStepKV_keeps st key val st2 h

/-- The whole loop never writes `ctor` or `unsubscribe_rate`. -/
theorem mcLoop_keeps (ls : List String) :
    ∀ st st2 : McState, mcLoop st ls = .ok st2 →
      st2.data.ctor = st.data.ctor ∧ st2.data.unsubscribe_rate = st.data.unsubscribe_rate := by
  induction ls with
  | nil => intro st st2 h; obtain rfl := Except.ok.inj h; exact ⟨rfl, rfl⟩
  | cons l ls ih =>
    intro st st2 h
    simp only [mcLoop] at h
    split at h
    · obtain rfl := Except.ok.inj h; exact ⟨rfl, rfl⟩
    · split at h
      · exact Except.noConfusion h
      · rename_i stm heq
        obtain ⟨h1, h2⟩ := mcStep_keeps st l stm heq
        obtain ⟨h3, h4⟩ := ih stm st2 h
        exact ⟨h3.trans h1, h4.trans h2⟩

/-- For a dict whose `ctor` is still `None`, the CTOR step sets exactly the
rule of lines 104-106. -/
theorem applyCtor_ctor (d : Campaign) (hd : d.ctor = none) :
    (applyCtor d).ctor = ctorRule d.opens d.clicks := by
  unfold applyCtor ctorRule
  split_ifs
  · rfl
  · exact hd

/-- The CTOR step changes no other field. -/
theorem applyCtor_fields (d : Campaign) :
    (applyCtor d).opens = d.opens ∧ (applyCtor d).clicks = d.clicks ∧
    (applyCtor d).delivered = d.delivered ∧ (applyCtor d).unsubscribes = d.unsubscribes ∧
    (applyCtor d).unsubscribe_rate = d.unsubscribe_rate := by
  unfold applyCtor
  split_ifs <;> exact ⟨rfl, rfl, rfl, rfl, rfl⟩

/-- For a dict whose `unsubscribe_rate` is still `None`, the
unsubscribe-rate step sets exactly the rule of lines 108-110. -/
theorem applyUnsubRate_rate (d : Campaign) (hd : d.unsubscribe_rate = none) :
    (applyUnsubRate d).unsubscribe_rate = unsubRule d.delivered d.unsubscribes := by
  unfold applyUnsubRate unsubRule
  split_ifs
  · rfl
  · exact hd

/-- The unsubscribe-rate step changes no other field. -/
theorem applyUnsubRate_fields (d : Campaign) :
    (applyUnsubRate d).opens = d.opens ∧ (applyUnsubRate d).clicks = d.clicks ∧
    (applyUnsubRate d).delivered = d.delivered ∧ (applyUnsubRate d).unsubscribes = d.unsubscribes ∧
    (applyUnsubRate d).ctor = d.ctor := by
  unfold applyUnsubRate
  split_ifs <;> exact ⟨rfl, rfl, rfl, rfl, rfl⟩

/-- The title/id step changes no metric field. -/
theorem applyTitleId_fields (d : Campaign) :
    (applyTitleId d).opens = d.opens ∧ (applyTitleId d).clicks = d.clicks ∧
    (applyTitleId d).delivered = d.delivered ∧ (applyTitleId d).unsubscribes = d.unsubscribes ∧
    (applyTitleId d).ctor = d.ctor ∧ (applyTitleId d).unsubscribe_rate = d.unsubscribe_rate :=
  ⟨rfl, rfl, rfl, rfl, rfl, rfl⟩

/-- The single campaign of the post-loop section satisfies both rate
rules, stated over its own output fields, provided the loop left the two
rate fields unset (which it always does). -/
theorem mcFinish_rates (st : McState) (hct : st.data.ctor = none)
    (hur : st.data.unsubscribe_rate = none) :
    ∀ c ∈ (mcFinish st).campaigns,
      c.ctor = ctorRule c.opens c.clicks ∧
      c.unsubscribe_rate = unsubRule c.delivered c.unsubscribes := by
  intro c hc
  have hceq : c = applyTitleId (applyUnsubRate (applyCtor st.data)) :=
    List.mem_singleton.mp hc
  subst hceq
  obtain ⟨ho1, hk1, hd1, hu1, hr1⟩ := applyCtor_fields st.data
  obtain ⟨ho2, hk2, hd2, hu2, hc2⟩ := applyUnsubRate_fields (applyCtor st.data)
  obtain ⟨ho3, hk3, hd3, hu3, hc3, hr3⟩ := applyTitleId_fields (applyUnsubRate (applyCtor st.data))
  constructor
  · rw [hc3, hc2, applyCtor_ctor st.data hct, ho3, ho2, hk3, hk2, ho1, hk1]
  · rw [hr3, hd3, hd2, hu3, hu2,
      applyUnsubRate_rate (applyCtor st.data) (hr1.trans hur)]

/-- If the CTOR rule produced a value from a nonnegative click count, the
value is nonnegative. -/
theorem ctorRule_nonneg (opens clicks : Option ℤ) (k : ℤ) (q : ℚ)
    (hk : clicks = some k) (hk0 : 0 ≤ k) (hq : ctorRule opens clicks = some q) : 0 ≤ q := by
  subst hk
  unfold ctorRule at hq
  split_ifs at hq with hcond
  · have hkq : (((some k).getD 0 : ℤ) : ℚ) / ((opens.getD 0 : ℤ) : ℚ) = q := Option.some.inj hq
    rw [← hkq]
    have h0k : (0 : ℚ) ≤ (((some k).getD 0 : ℤ) : ℚ) := by
      simp only [Option.getD]
      exact_mod_cast hk0
    have h0o : (0 : ℚ) ≤ ((opens.getD 0 : ℤ) : ℚ) := by exact_mod_cast le_of_lt hcond.2.2
    exact div_nonneg h0k h0o

/-- If the unsubscribe-rate rule produced a value from a nonnegative
unsubscribe count, the value is nonnegative. -/
theorem unsubRule_nonneg (delivered unsubs : Option ℤ) (u : ℤ) (q : ℚ)
    (hu : unsubs = some u) (hu0 : 0 ≤ u) (hq : unsubRule delivered unsubs = some q) : 0 ≤ q := by
  subst hu
  unfold unsubRule at hq
  split_ifs at hq with hcond
  · have huq : (((some u).getD 0 : ℤ) : ℚ) / ((delivered.getD 0 : ℤ) : ℚ) = q :=
      Option.some.inj hq
    rw [← huq]
    have h0u : (0 : ℚ) ≤ (((some u).getD 0 : ℤ) : ℚ) := by
      simp only [Option.getD]
      exact_mod_cast hu0
    have h0d : (0 : ℚ) ≤ ((delivered.getD 0 : ℤ) : ℚ) := by exact_mod_cast le_of_lt hcond.2.2
    exact div_nonneg h0u h0d

/-- C2 (amended): for every campaign the parser produces, `ctor` is
`clicks / opens` exactly when opens and clicks are both present and
non-zero with opens positive, and stays null otherwise (not 0);
`unsubscribe_rate` is `unsubscribes / delivered` exactly when delivered is
present, non-zero and positive and unsubscribes is present, and stays null
otherwise (not 0); computing them never raises (the computation is total),
and a computed value is nonnegative whenever its count is nonnegative. -/
theorem C2_theorem (text : String) (r : McReturn) (c : Campaign)
    (hok : parse_mailchimp text = .ok r) (hc : c ∈ r.campaigns) :
    c.ctor = ctorRule c.opens c.clicks ∧
    c.unsubscribe_rate = unsubRule c.delivered c.unsubscribes ∧
    (∀ k q, c.clicks = some k → 0 ≤ k → c.ctor = some q → 0 ≤ q) ∧
    (∀ u q, c.unsubscribes = some u → 0 ≤ u → c.unsubscribe_rate = some q → 0 ≤ q) := by
  have hrates : c.ctor = ctorRule c.opens c.clicks ∧
      c.unsubscribe_rate = unsubRule c.delivered c.unsubscribes := by
    unfold parse_mailchimp mcParseLines at hok
    rcases hl : mcLoop ⟨initMcData, none⟩ (pyLines text) with e | st <;> rw [hl] at hok
    · exact Except.noConfusion hok
    · have hr : r = mcFinish st := (Except.ok.inj hok).symm
      subst hr
      obtain ⟨hct, hur⟩ := mcLoop_keeps (pyLines text) ⟨initMcData, none⟩ st hl
      exact mcFinish_rates st hct hur c hc
  refine ⟨hrates.1, hrates.2, ?_, ?_⟩
  · intro k q hk hk0 hq
    rw [hrates.1] at hq
    exact ctorRule_nonneg c.opens c.clicks k q hk hk0 hq
  · intro u q hu hu0 hq
    rw [hrates.2] at hq
    exact unsubRule_nonneg c.delivered c.unsubscribes u q hu hu0 hq

/-- Witness for C2 at a concrete key-value report (zero delivered count:
both rules stay null). -/
theorem C2_witness :
    c2Campaign.ctor = ctorRule c2Campaign.opens c2Campaign.clicks ∧
    c2Campaign.unsubscribe_rate = unsubRule c2Campaign.delivered c2Campaign.unsubscribes ∧
    (∀ k q, c2Campaign.clicks = some k → 0 ≤ k → c2Campaign.ctor = some q → 0 ≤ q) ∧
    (∀ u q, c2Campaign.unsubscribes = some u → 0 ≤ u →
      c2Campaign.unsubscribe_rate = some q → 0 ≤ q) :=
  C2_theorem c2Text ⟨[c2Campaign]⟩ c2Campaign (by decide) (List.mem_singleton.mpr rfl)

/-- C5 (amended): the key-value mailchimp parser never raises
`EmptyReportError` — its only exceptions are `ValueError`s from numeric
coercion — and whenever it succeeds it returns exactly one campaign, so a
structurally empty input that matches the mailchimp signature yields one
all-null campaign rather than an empty-report failure. -/
theorem C5_theorem (text : String) :
    isEmptyReportErr (parse_mailchimp text) = false ∧
    (okCampaignCount (parse_mailchimp text) = none ∨
      okCampaignCount (parse_mailchimp text) = some 1) := by
  unfold parse_mailchimp mcParseLines
  rcases hl : mcLoop ⟨initMcData, none⟩ (pyLines text) with e | st
  · obtain ⟨m, hm⟩ := mcLoop_err (pyLines text) ⟨initMcData, none⟩ e hl
    subst hm
    exact ⟨rfl, Or.inl rfl⟩
  · refine ⟨rfl, Or.inr ?_⟩
    show some (mcFinish st).campaigns.length = some 1
    rw [mcFinish_length]

/-- Updating key `k` makes `k` map to `v`. -/
theorem lookupId_updateId_self (m : List (String × Campaign × ℤ)) (k : String)
    (v : Campaign × ℤ) : lookupId (updateId m k v) k = some v := by
  induction m with
  | nil => simp [updateId, lookupId]
  | cons e rest ih =>
    by_cases he : e.1 = k
    · simp [updateId, he, lookupId]
    · simp only [updateId, if_neg he]
      unfold lookupId at ih ⊢
      rw [List.find?_cons_of_neg _ (by simpa using he)]
      exact ih

/-- Updating key `k` leaves every other key unchanged. -/
theorem lookupId_updateId_ne (m : List (String × Campaign × ℤ)) (k : String)
    (v : Campaign × ℤ) (x : String) (hkx : k ≠ x) :
    lookupId (updateId m k v) x = lookupId m x := by
  induction m with
  | nil => simp [updateId, lookupId, hkx]
  | cons e rest ih =>
    by_cases he : e.1 = k
    · unfold updateId
      rw [if_pos he]
      unfold lookupId
      rw [List.find?_cons_of_neg _ (by simpa using hkx),
        List.find?_cons_of_neg _ (by simp [he, hkx])]
    · unfold updateId
      rw [if_neg he]
      unfold lookupId at ih ⊢
      by_cases hex : e.1 = x
      · rw [List.find?_cons_of_pos _ (by simpa using hex),
          List.find?_cons_of_pos _ (by simpa using hex)]
      · rw [List.find?_cons_of_neg _ (by simpa using hex),
          List.find?_cons_of_neg _ (by simpa using hex)]
        exact ih

/-- What `insert_campaign` does to the entry of key `x` (for a non-empty
`x`): the first meaningful occurrence with a strictly greater file index
replaces it, anything else leaves it alone. -/
theorem lookupId_insert (i : ℤ) (fn : String) (st : BatchState) (c : Campaign) (x : String)
    (hx : x ≠ "") :
    lookupId (insert_campaign i fn st c).campaigns_by_id x =
      (if dedupPred x c then
        match lookupId st.campaigns_by_id x with
        | none => some (c, i)
        | some (c0, j) => if i > j then some (c, i) else some (c0, j)
      else lookupId st.campaigns_by_id x) := by
  unfold insert_campaign
  by_cases hm : hasMeaningfulData c
  · rw [if_neg (by simpa using hm)]
    by_cases ht : pyTruthyOptStr c.unique_id
    · rw [if_pos ht]
      by_cases hux : c.unique_id = some x
      · have hgd : c.unique_id.getD "" = x := by rw [hux]; rfl
        rw [hgd]
        rw [if_pos (show dedupPred x c = true by simp [dedupPred, hm, hux])]
        rcases hl : lookupId st.campaigns_by_id x with _ | ⟨c0, j⟩
        · rw [if_pos (Or.inl rfl)]
          show lookupId (updateId st.campaigns_by_id x (c, i)) x = some (c, i)
          exact lookupId_updateId_self st.campaigns_by_id x (c, i)
        · have hsi : storedIdx st x = j := by
            unfold storedIdx
            rw [hl]
            rfl
          by_cases hij : i > j
          · rw [if_pos (Or.inr (by rw [hsi]; exact hij))]
            show lookupId (updateId st.campaigns_by_id x (c, i)) x =
              if i > j then some (c, i) else some (c0, j)
            rw [if_pos hij]
            exact lookupId_updateId_self st.campaigns_by_id x (c, i)
          · rw [if_neg (show ¬ (some (c0, j) = none ∨ i > storedIdx st x) from
              fun h => h.elim (fun h1 => Option.noConfusion h1) (fun h2 => hij (hsi ▸ h2)))]
            show lookupId st.campaigns_by_id x = if i > j then some (c, i) else some (c0, j)
            rw [if_neg hij, hl]
      · rw [if_neg (show ¬ dedupPred x c = true by simp [dedupPred, hux])]
        have hkey : c.unique_id.getD "" ≠ x := by
          rcases hu2 : c.unique_id with _ | uid
          · intro h
            exact hx h.symm
          · intro h
            have h2 : uid = x := h
            exact hux (by rw [hu2, h2])
        by_cases hcnd : lookupId st.campaigns_by_id (c.unique_id.getD "") = none ∨
            i > storedIdx st (c.unique_id.getD "")
        · rw [if_pos hcnd]
          show lookupId (updateId st.campaigns_by_id (c.unique_id.getD "") (c, i)) x =
            lookupId st.campaigns_by_id x
          exact lookupId_updateId_ne _ _ _ x hkey
        · rw [if_neg hcnd]
    · rw [if_neg ht]
      have hp : ¬ dedupPred x c = true := by
        simp only [dedupPred, Bool.and_eq_true, decide_eq_true_eq]
        rintro ⟨_, hcu⟩
        rw [hcu] at ht
        simp [pyTruthyOptStr] at ht
        exact hx ht
      rw [if_neg hp]
  · rw [if_pos (by simpa using hm)]
    have hp : ¬ dedupPred x c = true := by simp [dedupPred, hm]
    rw [if_neg hp]

/-- What one file's whole campaign loop does to the entry of key `x`: the
first matching campaign of the file occupies the slot exactly when the
slot was empty or held a strictly smaller file index; otherwise the slot
is untouched. -/
theorem lookupId_process (i : ℤ) (fn : String) (x : String) (hx : x ≠ "") :
    ∀ (cs : List Campaign) (st : BatchState),
      lookupId (process_campaigns i fn st cs).campaigns_by_id x =
        (match cs.find? (dedupPred x), lookupId st.campaigns_by_id x with
        | none, o => o
        | some c, none => some (c, i)
        | some c, some (c0, j) => if i > j then some (c, i) else some (c0, j)) := by
  intro cs
  induction cs with
  | nil => intro st; rfl
  | cons c cs ih =>
    intro st
    show lookupId (process_campaigns i fn (insert_campaign i fn st c) cs).campaigns_by_id x = _
    rw [ih (insert_campaign i fn st c), lookupId_insert i fn st c x hx]
    by_cases hp : dedupPred x c
    · rw [if_pos hp, List.find?_cons_of_pos _ hp]
      rcases hl0 : lookupId st.campaigns_by_id x with _ | ⟨c0, j⟩
      · rcases hf : cs.find? (dedupPred x) with _ | c2
        · rfl
        · show (if i > i then some (c2, i) else some (c, i)) = some (c, i)
          rw [if_neg (lt_irrefl i)]
      · show (match cs.find? (dedupPred x), (if i > j then some (c, i) else some (c0, j) :
              Option (Campaign × ℤ)) with
          | none, o => o
          | some c2, none => some (c2, i)
          | some c2, some (c3, j2) => if i > j2 then some (c2, i) else some (c3, j2)) =
          (if i > j then some (c, i) else some (c0, j))
        by_cases hij : i > j
        · rw [if_pos hij]
          rcases hf : cs.find? (dedupPred x) with _ | c2
          · rfl
          · show (if i > i then some (c2, i) else some (c, i)) = some (c, i)
            rw [if_neg (lt_irrefl i)]
        · rw [if_neg hij]
          rcases hf : cs.find? (dedupPred x) with _ | c2
          · rfl
          · show (if i > j then some (c2, i) else some (c0, j)) = some (c0, j)
            rw [if_neg hij]
    · rw [if_neg hp, List.find?_cons_of_neg _ hp]

/-- Any key of the updated dict is the written key or an old key. -/
theorem mem_keysOf_updateId (m : List (String × Campaign × ℤ)) (k : String)
    (v : Campaign × ℤ) (y : String) (h : y ∈ keysOf (updateId m k v)) :
    y ∈ keysOf m ∨ y = k := by
  induction m with
  | nil =>
    simp [updateId, keysOf] at h
    exact Or.inr h
  | cons e rest ih =>
    by_cases he : e.1 = k
    · unfold updateId at h
      rw [if_pos he] at h
      simp [keysOf] at h ⊢
      rcases h with h | h
      · exact Or.inr h
      · exact Or.inl (Or.inr h)
    · unfold updateId at h
      rw [if_neg he] at h
      simp [keysOf] at h ⊢
      rcases h with h | h
      · exact Or.inl (Or.inl h)
      · rcases ih (by simpa [keysOf] using h) with h2 | h2
        · exact Or.inl (Or.inr (by simpa [keysOf] using h2))
        · exact Or.inr h2

/-- Updating preserves distinctness of keys. -/
theorem nodup_keysOf_updateId (m : List (String × Campaign × ℤ)) (k : String)
    (v : Campaign × ℤ) (h : (keysOf m).Nodup) : (keysOf (updateId m k v)).Nodup := by
  induction m with
  | nil => simp [updateId, keysOf]
  | cons e rest ih =>
    simp only [keysOf, List.map_cons, List.nodup_cons] at h
    by_cases he : e.1 = k
    · unfold updateId
      rw [if_pos he]
      simp only [keysOf, List.map_cons, List.nodup_cons]
      exact ⟨he ▸ h.1, h.2⟩
    · unfold updateId
      rw [if_neg he]
      simp only [keysOf, List.map_cons, List.nodup_cons]
      refine ⟨?_, ih h.2⟩
      intro hmem
      rcases mem_keysOf_updateId rest k v e.1 (by simpa [keysOf] using hmem) with h2 | h2
      · exact h.1 (by simpa [keysOf] using h2)
      · exact he h2

/-- `insert_campaign` preserves distinctness of dict keys. -/
theorem nodup_keysOf_insert (i : ℤ) (fn : String) (st : BatchState) (c : Campaign)
    (h : (keysOf st.campaigns_by_id).Nodup) :
    (keysOf (insert_campaign i fn st c).campaigns_by_id).Nodup := by
  unfold insert_campaign
  by_cases hm : hasMeaningfulData c
  · rw [if_neg (by simpa using hm)]
    by_cases ht : pyTruthyOptStr c.unique_id
    · rw [if_pos ht]
      by_cases hcnd : lookupId st.campaigns_by_id (c.unique_id.getD "") = none ∨
          i > storedIdx st (c.unique_id.getD "")
      · rw [if_pos hcnd]
        exact nodup_keysOf_updateId st.campaigns_by_id _ (c, i) h
      · rw [if_neg hcnd]
        exact h
    · rw [if_neg ht]
      exact h
  · rw [if_pos (by simpa using hm)]
    exact h

/-- The whole per-file loop preserves distinctness of dict keys. -/
theorem nodup_keysOf_process (i : ℤ) (fn : String) (cs : List Campaign) :
    ∀ st : BatchState, (keysOf st.campaigns_by_id).Nodup →
      (keysOf (process_campaigns i fn st cs).campaigns_by_id).Nodup := by
  induction cs with
  | nil => intro st h; exact h
  | cons c cs ih =>
    intro st h
    exact ih (insert_campaign i fn st c) (nodup_keysOf_insert i fn st c h)

/-- With distinct keys, the dict has exactly one entry for a key it
contains, holding the looked-up value. -/
theorem filter_eq_of_lookupId (m : List (String × Campaign × ℤ)) (x : String)
    (v : Campaign × ℤ) (hnd : (keysOf m).Nodup) (h : lookupId m x = some v) :
    m.filter (fun e => decide (e.1 = x)) = [(x, v)] := by
  induction m with
  | nil => simp [lookupId] at h
  | cons e rest ih =>
    simp only [keysOf, List.map_cons, List.nodup_cons] at hnd
    by_cases hex : e.1 = x
    · unfold lookupId at h
      rw [List.find?_cons_of_pos _ (by simpa using hex)] at h
      have hv : e.2 = v := by simpa using h
      have hrest : rest.filter (fun e => decide (e.1 = x)) = [] := by
        rw [List.filter_eq_nil_iff]
        intro a ha hax
        exact hnd.1 (by
          simp only [keysOf, List.mem_map]
          exact ⟨a, ha, by rw [hex]; exact (by simpa using hax)⟩)
      rw [List.filter_cons_of_pos (by simpa using hex), hrest]
      have he2 : e = (x, v) := by
        rcases e with ⟨k1, v1⟩
        simp only [Prod.mk.injEq]
        exact ⟨hex, hv⟩
      rw [he2]
    · unfold lookupId at h
      rw [List.find?_cons_of_neg _ (by simpa using hex)] at h
      rw [List.filter_cons_of_neg (by simpa using hex)]
      exact ih hnd.2 h

/-- C3 (amended): grouping by non-null `unique_id`, the record that
survives deduplication is the FIRST meaningful occurrence within the
highest-`file_index` file containing that id: for files A then B both
containing id `x`, the merged dict holds exactly one entry for `x` — B
wins over A because B's file index is strictly greater, but within B the
first occurrence wins, because the strict `file_index >` comparison never
replaces an entry carrying an equal index. -/
theorem C3_theorem (csA csB : List Campaign) (x : String) (cB : Campaign)
    (hx : x ≠ "")
    (hB : csB.find? (dedupPred x) = some cB) :
    ((process_campaigns 1 "b.csv" (process_campaigns 0 "a.csv" initState csA)
        csB).campaigns_by_id).filter (fun e => decide (e.1 = x)) = [(x, cB, 1)] := by
  have h1 := lookupId_process 0 "a.csv" x hx csA initState
  have h2 := lookupId_process 1 "b.csv" x hx csB (process_campaigns 0 "a.csv" initState csA)
  rw [hB] at h2
  have hlook : lookupId (process_campaigns 1 "b.csv"
      (process_campaigns 0 "a.csv" initState csA) csB).campaigns_by_id x = some (cB, 1) := by
    rcases hfA : csA.find? (dedupPred x) with _ | cA
    · rw [hfA] at h1
      have h1n : lookupId (process_campaigns 0 "a.csv" initState csA).campaigns_by_id x =
          none := h1
      rw [h1n] at h2
      exact h2
    · rw [hfA] at h1
      have h1s : lookupId (process_campaigns 0 "a.csv" initState csA).campaigns_by_id x =
          some (cA, 0) := h1
      rw [h1s] at h2
      exact h2
  have hnd : (keysOf (process_campaigns 1 "b.csv"
      (process_campaigns 0 "a.csv" initState csA) csB).campaigns_by_id).Nodup := by
    refine nodup_keysOf_process 1 "b.csv" csB _ ?_
    refine nodup_keysOf_process 0 "a.csv" csA initState ?_
    simp [initState, keysOf]
  exact filter_eq_of_lookupId _ x (cB, 1) hnd hlook

/-- Witness for C3 at concrete campaign lists: file A has `X` with
delivered 10; file B has `X` twice, delivered 20 then 30; the survivor is
B's first occurrence. -/
theorem C3_witness :
    ((process_campaigns 1 "b.csv" (process_campaigns 0 "a.csv" initState [mlC "X" 10])
        [mlC "X" 20, mlC "X" 30]).campaigns_by_id).filter (fun e => decide (e.1 = "X")) =
      [("X", mlC "X" 20, 1)] :=
  C3_theorem [mlC "X" 10] [mlC "X" 20, mlC "X" 30] "X" (mlC "X" 20) (by decide) (by decide)

end SimpleDash
